import Mathlib

/-!
Verification of the character asset-generation workflow: data model
(`app/models/character.py`), prompt synthesizer and generation workflow
(`app/services/image_generator.py`), record store (`app/db/file_storage.py`),
and the HTTP endpoint orchestrators (`app/api/endpoints/characters.py`).

Conventions of the shallow embedding:
* UUIDs are modelled as `String` (the code only ever stringifies them or
  compares them for equality; `str(character.id)[:8]` becomes `String.take 8`).
* `datetime` values are modelled as `Nat` ticks.  A Python `datetime` object is
  always truthy, so `if not character.created_at:` in `save_character` is dead
  code and the embedding keeps only the live branch.
* Python `Optional[T]` becomes `Option T`; a missing dict key is `none`.
* The external world (OpenAI backend, HTTP download, filesystem) is an explicit
  `World` record of oracles, and the observable calls the code makes are
  returned as an event trace.
* Every exception that escapes `generate_character_image` is converted by its
  outer `except Exception` handler into one fixed `HTTPException(500, ...)`;
  the embedding returns that value on every failing path.
-/

/-- `app/models/character.py` `ImageVariation`: `generated_at` default factory
is `datetime.now`. -/
structure ImageVariation where
  image_path : String
  pose : Option String := none
  expression : Option String := none
  setting : Option String := none
  generated_at : Nat := 0
deriving Repr, DecidableEq

/-- `app/models/character.py` `Character` (includes the `CharacterBase`
fields `description` and `name`). -/
structure Character where
  description : String
  name : Option String := none
  id : String
  created_at : Nat
  updated_at : Nat
  base_image_path : Option String := none
  image_seed : Option Int := none
  variations : List ImageVariation := []
deriving Repr, DecidableEq

/-- `app/models/character.py` `CharacterCreate` (= `CharacterBase`). -/
structure CharacterCreate where
  description : String
  name : Option String := none
deriving Repr, DecidableEq

/-- `fastapi.HTTPException`: status code plus detail message. -/
structure HTTPExc where
  status : Nat
  detail : String
deriving Repr, DecidableEq

/-- The `variation_params` dict built by `create_character_variation` after
filtering out `None` values: a field is `none` exactly when the key is absent
from the dict.  A present key may still hold the empty string. -/
structure VariationParams where
  pose : Option String := none
  expression : Option String := none
  setting : Option String := none
deriving Repr, DecidableEq

/-- Python truthiness of the `variation_params` dict: a dict is truthy iff it
has at least one key. -/
def dictTruthy : Option VariationParams → Bool
  | none => false
  | some vp => vp.pose.isSome || vp.expression.isSome || vp.setting.isSome

/-- One `if variation_params.get(key): base_prompt += f". Label: {value}"`
block of `create_prompt`: a missing key or an empty string is falsy and
appends nothing. -/
def appendAttr (acc label : String) (v : Option String) : String :=
  match v with
  | some s => if s = "" then acc else acc ++ label ++ s
  | none => acc

/-- `app/services/image_generator.py` `create_prompt` (lines 30-49). -/
def create_prompt (character : Character) (variation_params : Option VariationParams) : String :=
  let character_id_short := character.id.take 8
  let base_prompt :=
    "I NEED to test how the tool works with extremely simple prompts. DO NOT add any detail, just use it AS-IS: Character ID '"
      ++ character_id_short
      ++ "' - Create a portrait of this specific character: "
      ++ character.description
  let base_prompt :=
    match variation_params with
    | none => base_prompt
    | some vp =>
      if vp.pose.isSome || vp.expression.isSome || vp.setting.isSome then
        appendAttr (appendAttr (appendAttr base_prompt ". Pose: " vp.pose)
          ". Expression: " vp.expression) ". Setting: " vp.setting
      else
        base_prompt
  base_prompt ++ ". IMPORTANT: This MUST be exactly the same character as previous images with the same Character ID. Maintain perfect consistency in the character's core features including face, body type, hair style, clothing style, and all distinctive characteristics. Use identical art style to previous generations."

/-! ## Record store (`app/db/file_storage.py`)

The storage file `characters_db.json` is modelled as either missing, corrupt
(top-level JSON parse failure or read error), or a valid JSON object whose
entries are already-validated character records (a JSON object has unique
keys, captured by `StorageWF`). -/

/-- The association list backing a Python dict keyed by character id. -/
abbrev CharMap := List (String × Character)

/-- State of the `characters_db.json` file. -/
inductive StorageFile where
  | missing
  | corrupt
  | valid (entries : CharMap)
deriving Repr, DecidableEq

/-- `characters.get(character_id)` on the dict. -/
def lookupChar : CharMap → String → Option Character
  | [], _ => none
  | (k, v) :: rest, i => if k = i then some v else lookupChar rest i

/-- `characters[character.id] = character` on the dict: replace in place if the
key exists, else append. -/
def insertChar : CharMap → String → Character → CharMap
  | [], k, v => [(k, v)]
  | (k0, v0) :: rest, k, v =>
      if k0 = k then (k, v) :: rest else (k0, v0) :: insertChar rest k v

/-- `del characters[character_id]` on the dict. -/
def eraseChar : CharMap → String → CharMap
  | [], _ => []
  | (k0, v0) :: rest, k => if k0 = k then rest else (k0, v0) :: eraseChar rest k

/-- Well-formedness of a storage file: a JSON object cannot repeat keys. -/
def StorageWF : StorageFile → Prop
  | .missing => True
  | .corrupt => True
  | .valid entries => (entries.map Prod.fst).Nodup

/-- `_read_storage` (lines 22-40): missing file or a top-level parse/read
error yields the empty dict. -/
def read_storage : StorageFile → CharMap
  | .missing => []
  | .corrupt => []
  | .valid entries => entries

/-- `_write_storage` (lines 42-52) on the successful path: serialize the whole
dict back to the file. -/
def write_storage (characters : CharMap) : StorageFile :=
  .valid characters

/-- `save_character` (lines 55-65).  `character.created_at` is a `datetime`,
hence always truthy, so only the `updated_at` refresh is live. -/
def save_character (file : StorageFile) (character : Character) (now : Nat) :
    StorageFile × Character :=
  let characters := read_storage file
  let character := { character with updated_at := now }
  let characters := insertChar characters character.id character
  (write_storage characters, character)

/-- `get_character` (lines 67-75). -/
def get_character (file : StorageFile) (character_id : String) : Option Character :=
  lookupChar (read_storage file) character_id

/-- `get_all_characters` (lines 77-82): all records sorted by `created_at`
descending (Python `sorted(..., reverse=True)` is stable). -/
def get_all_characters (file : StorageFile) : List Character :=
  ((read_storage file).map Prod.snd).mergeSort (fun a b => b.created_at ≤ a.created_at)

/-- `update_character` (lines 85-97): returns `none` without writing when the
identity is absent. -/
def update_character (file : StorageFile) (character : Character) (now : Nat) :
    StorageFile × Option Character :=
  let characters := read_storage file
  match lookupChar characters character.id with
  | none => (file, none)
  | some _ =>
      let character := { character with updated_at := now }
      (write_storage (insertChar characters character.id character), some character)

/-! ## The external world

`generate_character_image` and `delete_character` interact with the OpenAI
client, the HTTP downloader and the filesystem.  Those collaborators are
modelled as oracles in a `World` record, and the calls the code issues are
recorded in an event trace. -/

/-- One item of `response.data` from `client.images.generate`.  `url` is
`none` when the item has no URL; `seed` is `none` when the response has no
`seed` attribute or it is `None` (the code treats the two alike). -/
structure RespItem where
  url : Option String := none
  seed : Option Int := none
deriving Repr, DecidableEq

/-- Outcome of a `client.images.generate` call.  `typeErrorSeed` is a
`TypeError` whose message contains `unexpected keyword argument 'seed'`;
`typeErrorOther` is any other `TypeError`; `otherError` is any other
exception (auth, rate limit, ...). -/
inductive BackendRes where
  | success (data : List RespItem)
  | typeErrorSeed
  | typeErrorOther
  | otherError
deriving Repr, DecidableEq

/-- Outcome of the `async_client.get(image_url)` download. -/
inductive DownloadRes where
  | ok
  | httpStatusError (code : Nat)
  | requestError
deriving Repr, DecidableEq

/-- Observable calls made by `generate_character_image`.  A `backendCall`
records the prompt and the seed argument (`none` = no `seed` kwarg). -/
inductive Event where
  | backendCall (prompt : String) (seed : Option Int)
  | download (url : String)
  | writeFile (path : String)
deriving Repr, DecidableEq

/-- Filesystem mutations outside the storage file. -/
inductive FsEffect where
  | deleteTree (dir : String)
deriving Repr, DecidableEq

/-- Oracles for the external collaborators plus the nondeterministic inputs
(`random.randint`, `datetime.now().strftime(...)`, `os.path.relpath`). -/
structure World where
  backend : String → Option Int → BackendRes
  download : String → DownloadRes
  writeOk : Bool
  freshSeed : Int
  tsStr : String
  relpathOf : String → String
  dirExists : String → Bool

/-- `settings.IMAGE_STORAGE_PATH = os.path.join("static", "images")`
(`app/core/config.py`). -/
def IMAGE_STORAGE_PATH : String := "static/images"

/-- The one `HTTPException` every failing path of `generate_character_image`
surfaces: its outer `except Exception` handler (lines 150-153) catches every
exception, the inner `HTTPException`s included, and re-raises this value. -/
def genericGenFailure : HTTPExc :=
  ⟨500, "Image generation failed. Check server logs for details."⟩

/-- Seed determination, lines 56-66 of `generate_character_image`.  Returns
the value of the Python local `seed` together with the (possibly mutated)
character; `none` means the fall-through path on which `seed` is never
assigned, so that evaluating `seed=seed` at line 77 raises
`UnboundLocalError` before any backend call. -/
def seedPlan (w : World) (character : Character)
    (variation_params : Option VariationParams) : Option (Int × Character) :=
  if dictTruthy variation_params && character.image_seed.isSome then
    match character.image_seed with
    | some s => some (s, character)
    | none => none
  else if !dictTruthy variation_params then
    some (w.freshSeed, { character with image_seed := some w.freshSeed })
  else
    none

/-- Lines 69-93: attempt the seeded call; on the specific seed-unsupported
`TypeError` retry exactly once without the seed; any other exception (of the
first or of the retried call) propagates to the outer handler. -/
def runBackend (w : World) (prompt : String) (seed : Int) :
    List Event × Except HTTPExc (List RespItem) :=
  match w.backend prompt (some seed) with
  | .success data => ([.backendCall prompt (some seed)], .ok data)
  | .typeErrorSeed =>
      match w.backend prompt none with
      | .success data =>
          ([.backendCall prompt (some seed), .backendCall prompt none], .ok data)
      | _ =>
          ([.backendCall prompt (some seed), .backendCall prompt none],
            .error genericGenFailure)
  | .typeErrorOther => ([.backendCall prompt (some seed)], .error genericGenFailure)
  | .otherError => ([.backendCall prompt (some seed)], .error genericGenFailure)

/-- Lines 95-148 of `generate_character_image`: read `response.data[0]`
(an empty `data` raises `IndexError` into the outer handler), adopt a seed
echoed by the response, check the URL, download the bytes, and write the
asset file.  Returns the events issued, the post-state of the character
object, and the relative path on success. -/
def afterResponse (w : World) (character1 : Character)
    (variation_params : Option VariationParams) (data : List RespItem) :
    List Event × Character × Except HTTPExc String :=
  match data with
  | [] => ([], character1, .error genericGenFailure)
  | item :: _ =>
      let character2 :=
        match item.seed with
        | some s => { character1 with image_seed := some s }
        | none => character1
      match item.url with
      | none => ([], character2, .error genericGenFailure)
      | some image_url =>
          if image_url = "" then ([], character2, .error genericGenFailure)
          else
            match w.download image_url with
            | .ok =>
                let file_name := character2.id ++ "_" ++ w.tsStr ++ ".png"
                let folder_path :=
                  if dictTruthy variation_params then
                    IMAGE_STORAGE_PATH ++ "/" ++ character2.id ++ "/variations"
                  else
                    IMAGE_STORAGE_PATH ++ "/" ++ character2.id
                let file_path := folder_path ++ "/" ++ file_name
                if w.writeOk then
                  ([.download image_url, .writeFile file_path], character2,
                    .ok (w.relpathOf file_path))
                else
                  ([.download image_url, .writeFile file_path], character2,
                    .error genericGenFailure)
            | .httpStatusError _ =>
                ([.download image_url], character2, .error genericGenFailure)
            | .requestError =>
                ([.download image_url], character2, .error genericGenFailure)

/-- `generate_character_image` (`app/services/image_generator.py`,
lines 51-153).  Returns the trace of backend/download/write calls, the
post-state of the (mutated in place) character object, and either the
relative asset path or the one generic `HTTPException` produced by the outer
handler. -/
def generate_character_image (w : World) (character : Character)
    (variation_params : Option VariationParams) :
    List Event × Character × Except HTTPExc String :=
  let prompt := create_prompt character variation_params
  match seedPlan w character variation_params with
  | none => ([], character, .error genericGenFailure)
  | some (seed, character1) =>
      match runBackend w prompt seed with
      | (evs, .error e) => (evs, character1, .error e)
      | (evs, .ok data) =>
          let (evs2, character2, res) := afterResponse w character1 variation_params data
          (evs ++ evs2, character2, res)

/-! ## Endpoint orchestrators (`app/api/endpoints/characters.py`) -/

/-- `create_character` (lines 16-34): build the record, generate the base
image, then persist.  Any generation failure propagates before `save_character`
runs, so the storage file is returned unchanged on every failing path. -/
def create_character (w : World) (file : StorageFile)
    (character_data : CharacterCreate) (freshId : String) (now : Nat) :
    StorageFile × Except HTTPExc Character :=
  let new_character : Character :=
    { description := character_data.description, name := character_data.name,
      id := freshId, created_at := now, updated_at := now }
  match generate_character_image w new_character none with
  | (_, _, .error e) => (file, .error e)
  | (_, character1, .ok base_image_path) =>
      if base_image_path = "" then
        (file, .error ⟨500, "Failed to generate base image."⟩)
      else
        let character2 := { character1 with base_image_path := some base_image_path }
        let (file2, saved_character) := save_character file character2 now
        (file2, .ok saved_character)

/-- `read_character_by_id` (lines 36-44). -/
def read_character_by_id (file : StorageFile) (character_id : String) :
    Except HTTPExc Character :=
  match get_character file character_id with
  | none => .error ⟨404, "Character not found"⟩
  | some character => .ok character

/-- `create_character_variation` (lines 53-98).  The three query parameters
are `Option String`; the `active_variation_params` dict keeps exactly the
non-`None` ones, and the guard `if not active_variation_params:` fires only
when the dict is empty, i.e. when all three are `None`. -/
def create_character_variation (w : World) (file : StorageFile)
    (character_id : String) (pose expression setting : Option String)
    (now : Nat) : StorageFile × Except HTTPExc Character :=
  match get_character file character_id with
  | none => (file, .error ⟨404, "Character not found"⟩)
  | some character =>
      let active : VariationParams :=
        { pose := pose, expression := expression, setting := setting }
      if pose.isNone && expression.isNone && setting.isNone then
        (file, .error ⟨400,
          "At least one variation parameter (pose, expression, setting) must be provided"⟩)
      else
        match generate_character_image w character (some active) with
        | (_, _, .error e) => (file, .error e)
        | (_, character1, .ok image_path) =>
            if image_path = "" then
              (file, .error ⟨500, "Failed to generate variation image."⟩)
            else
              let variation : ImageVariation :=
                { image_path := image_path, pose := pose,
                  expression := expression, setting := setting,
                  generated_at := now }
              let character2 :=
                { character1 with variations := character1.variations ++ [variation] }
              match update_character file character2 now with
              | (file2, some updated_character) => (file2, .ok updated_character)
              | (file2, none) =>
                  (file2, .error ⟨404, "Character not found during update process."⟩)

/-- `delete_character` (`app/db/file_storage.py`, lines 99-120): the store
itself removes the character's image directory (best-effort `shutil.rmtree`,
recorded as an `FsEffect`) before deleting the record from the dict. -/
def delete_character (w : World) (file : StorageFile) (character_id : String) :
    StorageFile × List FsEffect × Bool :=
  let characters := read_storage file
  match lookupChar characters character_id with
  | none => (file, [], false)
  | some _ =>
      let character_dir := IMAGE_STORAGE_PATH ++ "/" ++ character_id
      let effs :=
        if w.dirExists character_dir then [FsEffect.deleteTree character_dir] else []
      (write_storage (eraseChar characters character_id), effs, true)

/-- `remove_character` (lines 100-108): delegates to the store's
`delete_character` and performs no asset deletion of its own. -/
def remove_character (w : World) (file : StorageFile) (character_id : String) :
    StorageFile × List FsEffect × Except HTTPExc Unit :=
  match delete_character w file character_id with
  | (file2, effs, true) => (file2, effs, .ok ())
  | (file2, effs, false) => (file2, effs, .error ⟨404, "Character not found"⟩)

/-! ## Spec-side reconstructions

These definitions follow the spec's wording, to be compared with the
source-derived `create_prompt` and with the claims about variations. -/

/-- The fixed prompt prefix around the short, stable slice (first 8
characters) of the character identifier, as the spec describes it. -/
def promptHeader (character : Character) : String :=
  "I NEED to test how the tool works with extremely simple prompts. DO NOT add any detail, just use it AS-IS: Character ID '"
    ++ character.id.take 8
    ++ "' - Create a portrait of this specific character: "
    ++ character.description

/-- The fixed closing consistency instruction the spec says is always
appended. -/
def closingInstruction : String :=
  ". IMPORTANT: This MUST be exactly the same character as previous images with the same Character ID. Maintain perfect consistency in the character's core features including face, body type, hair style, clothing style, and all distinctive characteristics. Use identical art style to previous generations."

/-- One variation attribute as the spec describes it: appended when present
(non-empty), omitted otherwise. -/
def attrPart (label : String) (v : Option String) : String :=
  match v with
  | some s => if s = "" then "" else label ++ s
  | none => ""

/-- The variation attributes appended in the spec's fixed order: pose, then
expression, then setting. -/
def attrsBlock : Option VariationParams → String
  | none => ""
  | some vp =>
      attrPart ". Pose: " vp.pose ++ attrPart ". Expression: " vp.expression
        ++ attrPart ". Setting: " vp.setting

/-- Whether a variation carries at least one non-empty attribute (the spec's
creation condition on `ImageVariation`). -/
def hasNonEmptyAttr (v : ImageVariation) : Bool :=
  !(v.pose.getD "").isEmpty || !(v.expression.getD "").isEmpty
    || !(v.setting.getD "").isEmpty

/-- Number of backend generation requests recorded in a trace. -/
def isBackendCall : Event → Bool
  | .backendCall _ _ => true
  | _ => false

def countBackendCalls (t : List Event) : Nat :=
  (t.filter isBackendCall).length

/-! ## Concrete scenario values (used by witnesses and counterexamples) -/

/-- An active character whose base image was created with seed 42. -/
def demoChar : Character :=
  { description := "a red fox wearing a blue scarf", id := "11111111-2222",
    created_at := 1, updated_at := 1,
    base_image_path := some "images/11111111-2222/base.png",
    image_seed := some 42 }

/-- A character with no `image_seed` recorded. -/
def demoNoSeed : Character :=
  { description := "a red fox wearing a blue scarf", id := "33333333-4444",
    created_at := 1, updated_at := 1 }

/-- A variation request carrying only a pose. -/
def demoVP : VariationParams := { pose := some "sitting" }

/-- A fresh-creation request body. -/
def demoCreate : CharacterCreate :=
  { description := "a red fox wearing a blue scarf" }

/-- A storage file holding exactly `demoChar`. -/
def demoFile : StorageFile := .valid [(demoChar.id, demoChar)]

/-- A world whose backend succeeds and echoes no seed. -/
def wOk : World :=
  { backend := fun _ _ => .success [{ url := some "http://img/out.png" }],
    download := fun _ => .ok, writeOk := true, freshSeed := 7,
    tsStr := "20250101120000000000", relpathOf := fun p => p,
    dirExists := fun _ => true }

/-- A world whose backend succeeds and echoes seed 99. -/
def wEcho : World :=
  { wOk with
    backend := fun _ _ => .success [{ url := some "http://img/out.png", seed := some 99 }] }

/-- A world whose backend fails with a non-seed-related error. -/
def wFail : World := { wOk with backend := fun _ _ => .otherError }

/-- The on-disk path written by the demo worlds for a variation asset. -/
def demoVarPath : String :=
  "static/images/11111111-2222/variations/11111111-2222_20250101120000000000.png"

/-- The record persisted by a variation request against `wEcho`: the echoed
seed 99 has overwritten the stored seed 42. -/
def echoedUpdate : Character :=
  { demoChar with
    image_seed := some 99
    updated_at := 5
    variations := [{ image_path := demoVarPath, pose := some "sitting", generated_at := 5 }] }

/-- The record persisted by a variation request whose only attribute is the
empty string. -/
def emptyAttrUpdate : Character :=
  { demoChar with
    updated_at := 5
    variations := [{ image_path := demoVarPath, pose := some "", generated_at := 5 }] }

/-! ## Store lemmas -/

theorem lookupChar_insertChar_self (m : CharMap) (k : String) (v : Character) :
    lookupChar (insertChar m k v) k = some v := by
  induction m with
  | nil => simp [insertChar, lookupChar]
  | cons hd tl ih =>
      by_cases h : hd.1 = k
      · simp [insertChar, h, lookupChar]
      · simp [insertChar, h, lookupChar, ih]

theorem lookupChar_eraseChar_self (m : CharMap) (k : String)
    (hnd : (m.map Prod.fst).Nodup) : lookupChar (eraseChar m k) k = none := by
  induction m with
  | nil => simp [eraseChar, lookupChar]
  | cons hd tl ih =>
      simp only [List.map_cons, List.nodup_cons] at hnd
      by_cases h : hd.1 = k
      · subst h
        cases hlk : lookupChar tl hd.1 with
        | none => simp [eraseChar, hlk]
        | some c =>
            exfalso
            apply hnd.1
            clear ih hnd
            induction tl with
            | nil => simp [lookupChar] at hlk
            | cons hd2 tl2 ih2 =>
                by_cases h2 : hd2.1 = hd.1
                · exact h2 ▸ List.mem_map_of_mem Prod.fst (List.mem_cons_self hd2 tl2)
                · simp only [lookupChar, h2, if_false] at hlk
                  simp only [List.map_cons, List.mem_cons]
                  exact Or.inr (by
                    have := ih2 hlk
                    simpa using this)
      · simp [eraseChar, h, lookupChar, ih hnd.2]

/-! ## Prompt synthesizer lemmas -/

theorem appendAttr_eq (acc label : String) (v : Option String) :
    appendAttr acc label v = acc ++ attrPart label v := by
  cases v with
  | none => simp [appendAttr, attrPart]
  | some s =>
      by_cases h : s = ""
      · simp [appendAttr, attrPart, h]
      · simp [appendAttr, attrPart, h, String.append_assoc]

theorem create_prompt_decomposition (character : Character)
    (variation_params : Option VariationParams) :
    create_prompt character variation_params
      = promptHeader character ++ attrsBlock variation_params ++ closingInstruction := by
  cases variation_params with
  | none => simp [create_prompt, promptHeader, attrsBlock, closingInstruction]
  | some vp =>
      rcases vp with ⟨p, e, s⟩
      by_cases hp : (VariationParams.mk p e s).pose.isSome
          || (VariationParams.mk p e s).expression.isSome
          || (VariationParams.mk p e s).setting.isSome
      · simp only [create_prompt, hp, if_true, appendAttr_eq]
        simp [promptHeader, attrsBlock, closingInstruction, String.append_assoc]
      · have hp' : p = none ∧ e = none ∧ s = none := by
          rcases p <;> rcases e <;> rcases s <;> simp_all
        rcases hp' with ⟨rfl, rfl, rfl⟩
        simp [create_prompt, promptHeader, attrsBlock, attrPart, closingInstruction,
          String.append_assoc]

/-- C7: prompt synthesis is a pure deterministic function of (description,
identity, variation attributes); the prompt embeds the first 8 characters of
the identifier; present variation attributes are appended in the fixed order
pose, expression, setting, absent ones omitted; and the fixed closing
consistency instruction is always appended. -/
theorem create_prompt_correct :
    (∀ (character : Character) (variation_params : Option VariationParams),
        create_prompt character variation_params
          = promptHeader character ++ attrsBlock variation_params ++ closingInstruction)
    ∧ (∀ (c1 c2 : Character) (v : Option VariationParams),
        c1.description = c2.description → c1.id = c2.id →
          create_prompt c1 v = create_prompt c2 v)
    ∧ (∀ (character : Character) (variation_params : Option VariationParams),
        ∃ pre post, create_prompt character variation_params
          = pre ++ character.id.take 8 ++ post) := by
  refine ⟨create_prompt_decomposition, ?_, ?_⟩
  · intro c1 c2 v h1 h2
    simp only [create_prompt, h1, h2]
  · intro character variation_params
    refine ⟨"I NEED to test how the tool works with extremely simple prompts. DO NOT add any detail, just use it AS-IS: Character ID '",
      "' - Create a portrait of this specific character: " ++ character.description
        ++ attrsBlock variation_params ++ closingInstruction, ?_⟩
    rw [create_prompt_decomposition]
    simp [promptHeader, String.append_assoc]

/-- C7 witness: the decomposition, determinism, and identifier-slice
properties at a concrete character and variation request. -/
theorem create_prompt_correct_witness :
    create_prompt demoChar (some demoVP)
      = promptHeader demoChar ++ attrsBlock (some demoVP) ++ closingInstruction
    ∧ (demoChar.description = demoChar.description ∧ demoChar.id = demoChar.id
        ∧ create_prompt demoChar (some demoVP) = create_prompt demoChar (some demoVP))
    ∧ (∃ pre post, create_prompt demoChar (some demoVP)
        = pre ++ demoChar.id.take 8 ++ post) :=
  ⟨create_prompt_correct.1 demoChar (some demoVP),
    ⟨rfl, rfl, create_prompt_correct.2.1 demoChar demoChar (some demoVP) rfl rfl⟩,
    create_prompt_correct.2.2 demoChar (some demoVP)⟩

/-- C8: `save` then `get` on the same identity returns exactly the saved
record; in this embedding the timestamps round-trip exactly, and the saved
record differs from the input only in `updated_at`. -/
theorem save_then_get_roundtrip :
    ∀ (file : StorageFile) (character : Character) (now : Nat),
      get_character (save_character file character now).1 character.id
        = some ((save_character file character now).2)
      ∧ (save_character file character now).2
          = { character with updated_at := now } := by
  intro file character now
  refine ⟨?_, rfl⟩
  simp only [save_character, get_character, write_storage, read_storage]
  exact lookupChar_insertChar_self _ _ _

/-- C8 witness: the round-trip at a concrete store and record. -/
theorem save_then_get_roundtrip_witness :
    get_character (save_character demoFile demoChar 9).1 demoChar.id
      = some ((save_character demoFile demoChar 9).2)
    ∧ (save_character demoFile demoChar 9).2 = { demoChar with updated_at := 9 } :=
  save_then_get_roundtrip demoFile demoChar 9

/-- C10: when the storage file is missing or fails to parse at top level,
every operation sees the empty collection: `get` returns not-found for every
identity, listing is empty, and a subsequent save writes a collection holding
only the newly saved record. -/
theorem store_empty_fallback :
    ∀ (character_id : String) (character : Character) (now : Nat),
      (get_character .missing character_id = none
        ∧ get_character .corrupt character_id = none)
      ∧ (get_all_characters .missing = [] ∧ get_all_characters .corrupt = [])
      ∧ ((save_character .missing character now).1
            = .valid [(character.id, { character with updated_at := now })]
        ∧ (save_character .corrupt character now).1
            = .valid [(character.id, { character with updated_at := now })]) := by
  intro character_id character now
  refine ⟨⟨rfl, rfl⟩, ⟨?_, ?_⟩, ⟨rfl, rfl⟩⟩ <;>
    simp [get_all_characters, read_storage, List.mergeSort]

/-- C10 witness: the empty-collection behaviour at a concrete identity and
record. -/
theorem store_empty_fallback_witness :
    (get_character .missing demoChar.id = none
      ∧ get_character .corrupt demoChar.id = none)
    ∧ (get_all_characters .missing = [] ∧ get_all_characters .corrupt = [])
    ∧ ((save_character .missing demoChar 9).1
          = .valid [(demoChar.id, { demoChar with updated_at := 9 })]
      ∧ (save_character .corrupt demoChar 9).1
          = .valid [(demoChar.id, { demoChar with updated_at := 9 })]) :=
  store_empty_fallback demoChar.id demoChar 9

/-- C9: a variation request (non-empty attributes) on a character with no
stored seed aborts before any backend call: the Python local `seed` is never
assigned, so evaluating the call raises into the outer handler.  No backend
request, download, or file write happens and the character is unchanged. -/
theorem variation_without_seed_aborts :
    ∀ (w : World) (character : Character) (vp : VariationParams),
      dictTruthy (some vp) = true → character.image_seed = none →
      generate_character_image w character (some vp)
        = ([], character, .error genericGenFailure) := by
  intro w character vp h1 h2
  simp [generate_character_image, seedPlan, h1, h2]

/-- C9 witness: the abort at a concrete character and variation request. -/
theorem variation_without_seed_aborts_witness :
    dictTruthy (some demoVP) = true ∧ demoNoSeed.image_seed = none
    ∧ generate_character_image wOk demoNoSeed (some demoVP)
        = ([], demoNoSeed, .error genericGenFailure) :=
  ⟨rfl, rfl, variation_without_seed_aborts wOk demoNoSeed demoVP rfl rfl⟩

/-! ## Generation-flow lemmas -/

theorem runBackend_head (w : World) (p : String) (s : Int) :
    (runBackend w p s).1.head? = some (.backendCall p (some s)) := by
  unfold runBackend
  rcases w.backend p (some s) with d | _ | _ | _ <;>
    first
      | rfl
      | (rcases w.backend p none with d2 | _ | _ | _ <;> rfl)

theorem runBackend_error_generic {w : World} {p : String} {s : Int} {e : HTTPExc}
    (h : (runBackend w p s).2 = .error e) : e = genericGenFailure := by
  unfold runBackend at h
  rcases hb : w.backend p (some s) with d | _ | _ | _ <;> rw [hb] at h
  · exact Except.noConfusion h
  · rcases hb2 : w.backend p none with d2 | _ | _ | _ <;> rw [hb2] at h
    · exact Except.noConfusion h
    all_goals exact (Except.error.inj h).symm
  all_goals exact (Except.error.inj h).symm

theorem afterResponse_error_generic {w : World} {c : Character}
    {vp : Option VariationParams} {d : List RespItem} {e : HTTPExc}
    (h : (afterResponse w c vp d).2.2 = .error e) : e = genericGenFailure := by
  unfold afterResponse at h
  rcases d with _ | ⟨⟨u, sd⟩, rest⟩
  · exact (Except.error.inj h).symm
  · rcases u with _ | u
    · exact (Except.error.inj h).symm
    · simp only at h
      by_cases h1 : u = ""
      · rw [if_pos h1] at h
        exact (Except.error.inj h).symm
      · rw [if_neg h1] at h
        rcases hd : w.download u with _ | code | _ <;> rw [hd] at h
        · by_cases hw : w.writeOk = true
          · rw [if_pos hw] at h
            exact Except.noConfusion h
          · rw [if_neg hw] at h
            exact (Except.error.inj h).symm
        all_goals exact (Except.error.inj h).symm

theorem afterResponse_no_backend (w : World) (c : Character)
    (vp : Option VariationParams) (d : List RespItem) :
    countBackendCalls (afterResponse w c vp d).1 = 0 := by
  unfold afterResponse
  rcases d with _ | ⟨⟨u, sd⟩, rest⟩
  · rfl
  · rcases u with _ | u
    · rfl
    · simp only
      by_cases h1 : u = ""
      · rw [if_pos h1]; rfl
      · rw [if_neg h1]
        rcases hd : w.download u with _ | code | _
        · by_cases hw : w.writeOk = true
          · rw [if_pos hw]; rfl
          · rw [if_neg hw]; rfl
        · rfl
        · rfl

theorem afterResponse_seed_isSome {w : World} {c : Character}
    {vp : Option VariationParams} {d : List RespItem}
    (h : c.image_seed.isSome = true) :
    ((afterResponse w c vp d).2.1.image_seed).isSome = true := by
  unfold afterResponse
  rcases d with _ | ⟨⟨u, sd⟩, rest⟩
  · exact h
  · rcases sd with _ | sd
    · rcases u with _ | u
      · exact h
      · simp only
        by_cases h1 : u = ""
        · rw [if_pos h1]; exact h
        · rw [if_neg h1]
          rcases hd : w.download u with _ | code | _
          · by_cases hw : w.writeOk = true
            · rw [if_pos hw]; exact h
            · rw [if_neg hw]; exact h
          · exact h
          · exact h
    · rcases u with _ | u
      · rfl
      · simp only
        by_cases h1 : u = ""
        · rw [if_pos h1]; rfl
        · rw [if_neg h1]
          rcases hd : w.download u with _ | code | _
          · by_cases hw : w.writeOk = true
            · rw [if_pos hw]; rfl
            · rw [if_neg hw]; rfl
          · rfl
          · rfl

theorem countBackendCalls_append (l1 l2 : List Event) :
    countBackendCalls (l1 ++ l2) = countBackendCalls l1 + countBackendCalls l2 := by
  simp [countBackendCalls, List.filter_append]

theorem generate_error_is_generic {w : World} {character : Character}
    {vp : Option VariationParams} {e : HTTPExc}
    (h : (generate_character_image w character vp).2.2 = .error e) :
    e = genericGenFailure := by
  simp only [generate_character_image] at h
  rcases hsp : seedPlan w character vp with _ | ⟨s, c1⟩ <;> simp only [hsp] at h
  · exact (Except.error.inj h).symm
  · rcases hrb : runBackend w (create_prompt character vp) s with ⟨evs, r⟩
    rw [hrb] at h
    rcases r with e2 | data
    · have he2 : (runBackend w (create_prompt character vp) s).2 = .error e2 := by
        rw [hrb]
      have h2 : e2 = e := Except.error.inj h
      exact h2 ▸ runBackend_error_generic he2
    · exact afterResponse_error_generic
        (show (afterResponse w c1 vp data).2.2 = .error e from h)

theorem generate_head {w : World} {character : Character}
    {vp : Option VariationParams} {s : Int} {c1 : Character}
    (hsp : seedPlan w character vp = some (s, c1)) :
    (generate_character_image w character vp).1.head?
      = some (.backendCall (create_prompt character vp) (some s)) := by
  simp only [generate_character_image, hsp]
  rcases hrb : runBackend w (create_prompt character vp) s with ⟨evs, r⟩
  have hh := runBackend_head w (create_prompt character vp) s
  rw [hrb] at hh
  rcases r with e2 | data
  · exact hh
  · rcases evs with _ | ⟨a, t⟩
    · simp at hh
    · rcases ha : afterResponse w c1 vp data with ⟨e2, c2, r2⟩
      simpa using hh

/-- C5: if generation (backend call, download, or asset write) fails during
character creation, the creation aborts entirely: the storage file is
unchanged (no record, partial or otherwise, is persisted) and the caller
receives the one generic generation-failure error. -/
theorem creation_atomic_on_failure :
    ∀ (w : World) (file : StorageFile) (character_data : CharacterCreate)
      (freshId : String) (now : Nat) (e : HTTPExc),
      (generate_character_image w
          { description := character_data.description, name := character_data.name,
            id := freshId, created_at := now, updated_at := now } none).2.2
        = .error e →
      create_character w file character_data freshId now = (file, .error e)
      ∧ e = genericGenFailure := by
  intro w file character_data freshId now e h
  refine ⟨?_, generate_error_is_generic h⟩
  simp only [create_character]
  rcases hg : generate_character_image w
      { description := character_data.description, name := character_data.name,
        id := freshId, created_at := now, updated_at := now } none with ⟨evs, c1, r⟩
  rw [hg] at h
  rcases r with e2 | p
  · have : e2 = e := Except.error.inj h
    subst this
    rfl
  · exact Except.noConfusion h

/-- C5 witness: a failing backend aborts creation at concrete inputs, leaving
the concrete store untouched. -/
theorem creation_atomic_on_failure_witness :
    (generate_character_image wFail
        { description := demoCreate.description, name := demoCreate.name,
          id := "55555555-6666", created_at := 3, updated_at := 3 } none).2.2
      = .error genericGenFailure
    ∧ create_character wFail demoFile demoCreate "55555555-6666" 3
        = (demoFile, .error genericGenFailure) :=
  ⟨rfl, (creation_atomic_on_failure wFail demoFile demoCreate "55555555-6666" 3
      genericGenFailure rfl).1⟩

/-- C3: when a seed is supplied (the Python local `seed` is assigned), the
seeded backend request is attempted first; exactly one unseeded retry happens
iff that request was rejected with the seed-unsupported `TypeError`, and the
call then proceeds with the retry's response; every other backend error (of
the first call or of the retry) is surfaced as the generic generation failure
with no further retry. -/
theorem seed_fallback_correct :
    ∀ (w : World) (character : Character) (vp : Option VariationParams)
      (s : Int) (c1 : Character),
      seedPlan w character vp = some (s, c1) →
      (generate_character_image w character vp).1.head?
          = some (.backendCall (create_prompt character vp) (some s))
      ∧ countBackendCalls (generate_character_image w character vp).1
          = (if w.backend (create_prompt character vp) (some s) = .typeErrorSeed
              then 2 else 1)
      ∧ (w.backend (create_prompt character vp) (some s) = .typeErrorSeed →
          (generate_character_image w character vp).1.take 2
            = [.backendCall (create_prompt character vp) (some s),
                .backendCall (create_prompt character vp) none])
      ∧ ((w.backend (create_prompt character vp) (some s) = .typeErrorOther
            ∨ w.backend (create_prompt character vp) (some s) = .otherError) →
          generate_character_image w character vp
            = ([.backendCall (create_prompt character vp) (some s)], c1,
                .error genericGenFailure))
      ∧ (∀ data, w.backend (create_prompt character vp) (some s) = .typeErrorSeed →
          w.backend (create_prompt character vp) none = .success data →
          generate_character_image w character vp
            = ([.backendCall (create_prompt character vp) (some s),
                .backendCall (create_prompt character vp) none]
                  ++ (afterResponse w c1 vp data).1,
                (afterResponse w c1 vp data).2.1,
                (afterResponse w c1 vp data).2.2))
      ∧ (w.backend (create_prompt character vp) (some s) = .typeErrorSeed →
          (w.backend (create_prompt character vp) none = .typeErrorSeed
            ∨ w.backend (create_prompt character vp) none = .typeErrorOther
            ∨ w.backend (create_prompt character vp) none = .otherError) →
          generate_character_image w character vp
            = ([.backendCall (create_prompt character vp) (some s),
                .backendCall (create_prompt character vp) none], c1,
                .error genericGenFailure)) := by
  intro w character vp s c1 h
  rcases hb : w.backend (create_prompt character vp) (some s) with data | _ | _ | _
  · have key : generate_character_image w character vp
        = ([Event.backendCall (create_prompt character vp) (some s)]
              ++ (afterResponse w c1 vp data).1,
            (afterResponse w c1 vp data).2.1, (afterResponse w c1 vp data).2.2) := by
      simp only [generate_character_image, h, runBackend, hb]
    rw [key]
    refine ⟨rfl, ?_, ?_, ?_, ?_, ?_⟩
    · rw [countBackendCalls_append, afterResponse_no_backend]
      simp [countBackendCalls, isBackendCall]
    · intro hx; exact absurd hx (by simp)
    · intro hx; rcases hx with hx | hx <;> exact absurd hx (by simp)
    · intro data2 hx; exact absurd hx (by simp)
    · intro hx; exact absurd hx (by simp)
  · rcases hb2 : w.backend (create_prompt character vp) none with data | _ | _ | _
    · have key : generate_character_image w character vp
          = ([Event.backendCall (create_prompt character vp) (some s),
              Event.backendCall (create_prompt character vp) none]
                ++ (afterResponse w c1 vp data).1,
              (afterResponse w c1 vp data).2.1, (afterResponse w c1 vp data).2.2) := by
        simp only [generate_character_image, h, runBackend, hb, hb2]
      rw [key]
      refine ⟨rfl, ?_, fun _ => rfl, ?_, ?_, ?_⟩
      · rw [countBackendCalls_append, afterResponse_no_backend]
        simp [countBackendCalls, isBackendCall]
      · intro hx; rcases hx with hx | hx <;> exact absurd hx (by simp)
      · intro data2 _ hx
        injection hx with hx
        subst hx
        rfl
      · intro _ hx
        rcases hx with hx | hx | hx <;> exact absurd hx (by simp)
    · have key : generate_character_image w character vp
          = ([Event.backendCall (create_prompt character vp) (some s),
              Event.backendCall (create_prompt character vp) none], c1,
              .error genericGenFailure) := by
        simp only [generate_character_image, h, runBackend, hb, hb2]
      rw [key]
      refine ⟨rfl, by simp [countBackendCalls, isBackendCall], fun _ => rfl, ?_, ?_,
        fun _ _ => rfl⟩
      · intro hx; rcases hx with hx | hx <;> exact absurd hx (by simp)
      · intro data2 _ hx; exact absurd hx (by simp)
    · have key : generate_character_image w character vp
          = ([Event.backendCall (create_prompt character vp) (some s),
              Event.backendCall (create_prompt character vp) none], c1,
              .error genericGenFailure) := by
        simp only [generate_character_image, h, runBackend, hb, hb2]
      rw [key]
      refine ⟨rfl, by simp [countBackendCalls, isBackendCall], fun _ => rfl, ?_, ?_,
        fun _ _ => rfl⟩
      · intro hx; rcases hx with hx | hx <;> exact absurd hx (by simp)
      · intro data2 _ hx; exact absurd hx (by simp)
    · have key : generate_character_image w character vp
          = ([Event.backendCall (create_prompt character vp) (some s),
              Event.backendCall (create_prompt character vp) none], c1,
              .error genericGenFailure) := by
        simp only [generate_character_image, h, runBackend, hb, hb2]
      rw [key]
      refine ⟨rfl, by simp [countBackendCalls, isBackendCall], fun _ => rfl, ?_, ?_,
        fun _ _ => rfl⟩
      · intro hx; rcases hx with hx | hx <;> exact absurd hx (by simp)
      · intro data2 _ hx; exact absurd hx (by simp)
  · have key : generate_character_image w character vp
        = ([Event.backendCall (create_prompt character vp) (some s)], c1,
            .error genericGenFailure) := by
      simp only [generate_character_image, h, runBackend, hb]
    rw [key]
    refine ⟨rfl, by simp [countBackendCalls, isBackendCall], ?_, fun _ => rfl, ?_, ?_⟩
    · intro hx; exact absurd hx (by simp)
    · intro data2 hx; exact absurd hx (by simp)
    · intro hx; exact absurd hx (by simp)
  · have key : generate_character_image w character vp
        = ([Event.backendCall (create_prompt character vp) (some s)], c1,
            .error genericGenFailure) := by
      simp only [generate_character_image, h, runBackend, hb]
    rw [key]
    refine ⟨rfl, by simp [countBackendCalls, isBackendCall], ?_, fun _ => rfl, ?_, ?_⟩
    · intro hx; exact absurd hx (by simp)
    · intro data2 hx; exact absurd hx (by simp)
    · intro hx; exact absurd hx (by simp)

/-- C3 witness: with a concrete successful backend, the seeded request is
first and is the only backend request. -/
theorem seed_fallback_correct_witness :
    seedPlan wOk demoChar (some demoVP) = some (42, demoChar)
    ∧ (generate_character_image wOk demoChar (some demoVP)).1.head?
        = some (.backendCall (create_prompt demoChar (some demoVP)) (some 42))
    ∧ countBackendCalls (generate_character_image wOk demoChar (some demoVP)).1
        = (if wOk.backend (create_prompt demoChar (some demoVP)) (some 42)
              = .typeErrorSeed then 2 else 1) :=
  ⟨rfl, (seed_fallback_correct wOk demoChar (some demoVP) 42 demoChar rfl).1,
    (seed_fallback_correct wOk demoChar (some demoVP) 42 demoChar rfl).2.1⟩

theorem afterResponse_post (w : World) (c : Character) (vp : Option VariationParams)
    (item : RespItem) (rest : List RespItem) :
    (afterResponse w c vp (item :: rest)).2.1
      = (match item.seed with
          | some s => { c with image_seed := some s }
          | none => c) := by
  unfold afterResponse
  rcases item with ⟨u, sd⟩
  rcases u with _ | u
  · rfl
  · simp only
    by_cases h1 : u = ""
    · rw [if_pos h1]
    · rw [if_neg h1]
      rcases hd : w.download u with _ | code | _
      · by_cases hw : w.writeOk = true
        · rw [if_pos hw]
        · rw [if_neg hw]
      all_goals rfl

/-- C1 (amended): `image_seed` is assigned at base-image creation, and a
variation generation on a character with stored seed `s` passes exactly
`some s` in its first (seeded) backend request; however, the post-state seed
is the stored one only when the successful backend response echoes no seed —
an echoed response seed overwrites `image_seed` even on variation calls
(lines 96-102 of `image_generator.py`), which is the one post-creation
mutation. -/
theorem seed_lifecycle :
    (∀ (w : World) (character : Character),
        ((generate_character_image w character none).2.1.image_seed).isSome = true)
    ∧ (∀ (w : World) (character : Character) (vp : VariationParams) (s : Int),
        dictTruthy (some vp) = true → character.image_seed = some s →
        (generate_character_image w character (some vp)).1.head?
            = some (.backendCall (create_prompt character (some vp)) (some s))
        ∧ ((generate_character_image w character (some vp)).2.1.image_seed = some s
            ∨ ∃ item rest,
                (w.backend (create_prompt character (some vp)) (some s)
                    = .success (item :: rest)
                  ∨ (w.backend (create_prompt character (some vp)) (some s)
                        = .typeErrorSeed
                      ∧ w.backend (create_prompt character (some vp)) none
                          = .success (item :: rest)))
                ∧ item.seed.isSome = true
                ∧ (generate_character_image w character (some vp)).2.1.image_seed
                    = item.seed)) := by
  constructor
  · intro w character
    have hsp : seedPlan w character none
        = some (w.freshSeed, { character with image_seed := some w.freshSeed }) := by
      simp [seedPlan, dictTruthy]
    simp only [generate_character_image, hsp]
    rcases hrb : runBackend w (create_prompt character none) w.freshSeed with ⟨evs, r⟩
    rcases r with e2 | data
    · rfl
    · exact afterResponse_seed_isSome rfl
  · intro w character vp s h1 h2
    have hsp : seedPlan w character (some vp) = some (s, character) := by
      simp [seedPlan, h1, h2]
    refine ⟨generate_head hsp, ?_⟩
    rcases hb : w.backend (create_prompt character (some vp)) (some s)
      with data | _ | _ | _
    · have key : generate_character_image w character (some vp)
          = ([Event.backendCall (create_prompt character (some vp)) (some s)]
                ++ (afterResponse w character (some vp) data).1,
              (afterResponse w character (some vp) data).2.1,
              (afterResponse w character (some vp) data).2.2) := by
        simp only [generate_character_image, hsp, runBackend, hb]
      rw [key]
      rcases data with _ | ⟨item, rest⟩
      · exact Or.inl h2
      · rcases hi : item.seed with _ | sd
        · refine Or.inl ?_
          show (afterResponse w character (some vp) (item :: rest)).2.1.image_seed
              = some s
          rw [afterResponse_post, hi]
          exact h2
        · refine Or.inr ⟨item, rest, Or.inl rfl, by rw [hi]; rfl, ?_⟩
          show (afterResponse w character (some vp) (item :: rest)).2.1.image_seed
              = item.seed
          rw [afterResponse_post, hi]
    · rcases hb2 : w.backend (create_prompt character (some vp)) none
        with data | _ | _ | _
      · have key : generate_character_image w character (some vp)
            = ([Event.backendCall (create_prompt character (some vp)) (some s),
                Event.backendCall (create_prompt character (some vp)) none]
                  ++ (afterResponse w character (some vp) data).1,
                (afterResponse w character (some vp) data).2.1,
                (afterResponse w character (some vp) data).2.2) := by
          simp only [generate_character_image, hsp, runBackend, hb, hb2]
        rw [key]
        rcases data with _ | ⟨item, rest⟩
        · exact Or.inl h2
        · rcases hi : item.seed with _ | sd
          · refine Or.inl ?_
            show (afterResponse w character (some vp) (item :: rest)).2.1.image_seed
                = some s
            rw [afterResponse_post, hi]
            exact h2
          · refine Or.inr ⟨item, rest, Or.inr ⟨rfl, rfl⟩, by rw [hi]; rfl, ?_⟩
            show (afterResponse w character (some vp) (item :: rest)).2.1.image_seed
                = item.seed
            rw [afterResponse_post, hi]
      · have key : generate_character_image w character (some vp)
            = ([Event.backendCall (create_prompt character (some vp)) (some s),
                Event.backendCall (create_prompt character (some vp)) none], character,
                .error genericGenFailure) := by
          simp only [generate_character_image, hsp, runBackend, hb, hb2]
        rw [key]
        exact Or.inl h2
      · have key : generate_character_image w character (some vp)
            = ([Event.backendCall (create_prompt character (some vp)) (some s),
                Event.backendCall (create_prompt character (some vp)) none], character,
                .error genericGenFailure) := by
          simp only [generate_character_image, hsp, runBackend, hb, hb2]
        rw [key]
        exact Or.inl h2
      · have key : generate_character_image w character (some vp)
            = ([Event.backendCall (create_prompt character (some vp)) (some s),
                Event.backendCall (create_prompt character (some vp)) none], character,
                .error genericGenFailure) := by
          simp only [generate_character_image, hsp, runBackend, hb, hb2]
        rw [key]
        exact Or.inl h2
    · have key : generate_character_image w character (some vp)
          = ([Event.backendCall (create_prompt character (some vp)) (some s)], character,
              .error genericGenFailure) := by
        simp only [generate_character_image, hsp, runBackend, hb]
      rw [key]
      exact Or.inl h2
    · have key : generate_character_image w character (some vp)
          = ([Event.backendCall (create_prompt character (some vp)) (some s)], character,
              .error genericGenFailure) := by
        simp only [generate_character_image, hsp, runBackend, hb]
      rw [key]
      exact Or.inl h2

/-- C1 counterexample: the claim that `image_seed` is never mutated after
base-image creation is false — against a backend that echoes seed 99, a
variation request on a character stored with seed 42 persists a record whose
`image_seed` is 99. -/
theorem seed_overwritten_cex :
    demoChar.image_seed = some 42
    ∧ (create_character_variation wEcho demoFile demoChar.id (some "sitting") none none 5).2
        = .ok echoedUpdate
    ∧ echoedUpdate.image_seed = some 99
    ∧ echoedUpdate.image_seed ≠ demoChar.image_seed
    ∧ get_character
        (create_character_variation wEcho demoFile demoChar.id (some "sitting") none none 5).1
        demoChar.id = some echoedUpdate :=
  ⟨rfl, rfl, rfl, by decide, rfl⟩

/-- C1 witness: the amended seed lifecycle at a concrete world whose backend
echoes no seed — the stored seed 42 is passed to the backend and survives. -/
theorem seed_lifecycle_witness :
    ((generate_character_image wOk demoNoSeed none).2.1.image_seed).isSome = true
    ∧ (dictTruthy (some demoVP) = true ∧ demoChar.image_seed = some 42)
    ∧ (generate_character_image wOk demoChar (some demoVP)).1.head?
        = some (.backendCall (create_prompt demoChar (some demoVP)) (some 42))
    ∧ ((generate_character_image wOk demoChar (some demoVP)).2.1.image_seed = some 42
        ∨ ∃ item rest,
            (wOk.backend (create_prompt demoChar (some demoVP)) (some 42)
                = .success (item :: rest)
              ∨ (wOk.backend (create_prompt demoChar (some demoVP)) (some 42)
                    = .typeErrorSeed
                  ∧ wOk.backend (create_prompt demoChar (some demoVP)) none
                      = .success (item :: rest)))
            ∧ item.seed.isSome = true
            ∧ (generate_character_image wOk demoChar (some demoVP)).2.1.image_seed
                = item.seed) :=
  ⟨seed_lifecycle.1 wOk demoNoSeed, ⟨rfl, rfl⟩,
    (seed_lifecycle.2 wOk demoChar demoVP 42 rfl rfl).1,
    (seed_lifecycle.2 wOk demoChar demoVP 42 rfl rfl).2⟩

theorem update_character_some {file : StorageFile} {ch : Character} {now : Nat}
    {f2 : StorageFile} {c3 : Character}
    (h : update_character file ch now = (f2, some c3)) :
    c3 = { ch with updated_at := now } := by
  simp only [update_character] at h
  rcases hl : lookupChar (read_storage file) ch.id with _ | c0 <;> rw [hl] at h
  · have := congrArg Prod.snd h
    simp at this
  · have := congrArg Prod.snd h
    simp at this
    exact this.symm


/-- C2 (amended): `add_variation` on an existing character fails with the
`InvalidRequest` (400) error and leaves the store unmodified exactly when all
three attributes are absent (`None`); a provided-but-empty string counts as
present, and the created variation carries the request's attributes verbatim
— possibly all empty. -/
theorem variation_guard_amended :
    ∀ (w : World) (file : StorageFile) (character_id : String)
      (pose expression setting : Option String) (now : Nat) (c : Character),
      get_character file character_id = some c →
      ((pose = none ∧ expression = none ∧ setting = none) →
        create_character_variation w file character_id pose expression setting now
          = (file, .error ⟨400,
              "At least one variation parameter (pose, expression, setting) must be provided"⟩))
      ∧ ((pose.isSome = true ∨ expression.isSome = true ∨ setting.isSome = true) →
          (create_character_variation w file character_id pose expression setting now).2
            ≠ .error ⟨400,
              "At least one variation parameter (pose, expression, setting) must be provided"⟩)
      ∧ (∀ c2,
          (create_character_variation w file character_id pose expression setting now).2
            = .ok c2 →
          c2.variations.getLast?.map (fun v => (v.pose, v.expression, v.setting))
            = some (pose, expression, setting)) := by
  intro w file character_id pose expression setting now c hc
  refine ⟨?_, ?_, ?_⟩
  · rintro ⟨rfl, rfl, rfl⟩
    simp [create_character_variation, hc]
  · intro hsome
    have hguard : ¬ ((pose.isNone && expression.isNone && setting.isNone) = true) := by
      rcases pose <;> rcases expression <;> rcases setting <;> simp_all
    simp only [create_character_variation, hc]
    rw [if_neg hguard]
    rcases hg : generate_character_image w c
        (some { pose := pose, expression := expression, setting := setting })
      with ⟨evs, c1, r⟩
    rcases r with e | p
    · have he : e = genericGenFailure := generate_error_is_generic (by rw [hg])
      subst he
      intro hx
      exact absurd (Except.error.inj hx) (by decide)
    · dsimp only
      by_cases hp : p = ""
      · rw [if_pos hp]
        intro hx
        exact absurd (Except.error.inj hx) (by decide)
      · rw [if_neg hp]
        rcases hu : update_character file
            { c1 with variations := c1.variations
                ++ [{ image_path := p, pose := pose, expression := expression,
                      setting := setting, generated_at := now }] } now
          with ⟨file2, r2⟩
        rcases r2 with _ | c3
        · intro hx
          exact absurd (Except.error.inj hx) (by decide)
        · intro hx
          exact Except.noConfusion hx
  · intro c2 hok
    by_cases hguard : (pose.isNone && expression.isNone && setting.isNone) = true
    · simp [create_character_variation, hc, hguard] at hok
    · simp only [create_character_variation, hc] at hok
      rw [if_neg hguard] at hok
      rcases hg : generate_character_image w c
          (some { pose := pose, expression := expression, setting := setting })
        with ⟨evs, c1, r⟩
      rw [hg] at hok
      rcases r with e | p
      · exact Except.noConfusion hok
      · dsimp only at hok
        by_cases hp : p = ""
        · rw [if_pos hp] at hok
          exact Except.noConfusion hok
        · rw [if_neg hp] at hok
          rcases hu : update_character file
              { c1 with variations := c1.variations
                  ++ [{ image_path := p, pose := pose, expression := expression,
                        setting := setting, generated_at := now }] } now
            with ⟨file2, r2⟩
          rw [hu] at hok
          rcases r2 with _ | c3
          · exact Except.noConfusion hok
          · have hc3 : c3 = c2 := Except.ok.inj hok
            subst hc3
            rw [update_character_some hu]
            simp

/-- C2 witness: the amended guard behaviour at a concrete store — all-absent
attributes produce the 400 error and leave the store unchanged; a present
attribute does not produce that error; the appended variation carries the
request's attributes. -/
theorem variation_guard_amended_witness :
    get_character demoFile demoChar.id = some demoChar
    ∧ create_character_variation wOk demoFile demoChar.id none none none 5
        = (demoFile, .error ⟨400,
            "At least one variation parameter (pose, expression, setting) must be provided"⟩)
    ∧ (create_character_variation wOk demoFile demoChar.id (some "sitting") none none 5).2
        ≠ .error ⟨400,
            "At least one variation parameter (pose, expression, setting) must be provided"⟩ :=
  ⟨rfl,
    (variation_guard_amended wOk demoFile demoChar.id none none none 5 demoChar rfl).1
      ⟨rfl, rfl, rfl⟩,
    (variation_guard_amended wOk demoFile demoChar.id (some "sitting") none none 5
      demoChar rfl).2.1 (Or.inl rfl)⟩

/-- C2 counterexample: with `pose` provided as the empty string, the request
does not fail with `InvalidRequest`; it succeeds and persists an
`ImageVariation` none of whose attributes is a non-empty string. -/
theorem empty_attr_cex :
    (create_character_variation wOk demoFile demoChar.id (some "") none none 5).2
        ≠ .error ⟨400,
            "At least one variation parameter (pose, expression, setting) must be provided"⟩
    ∧ (create_character_variation wOk demoFile demoChar.id (some "") none none 5).2
        = .ok emptyAttrUpdate
    ∧ emptyAttrUpdate.variations ≠ []
    ∧ emptyAttrUpdate.variations.all hasNonEmptyAttr = false := by
  refine ⟨?_, rfl, by decide, rfl⟩
  intro hx
  rw [show (create_character_variation wOk demoFile demoChar.id (some "") none none 5).2
      = .ok emptyAttrUpdate from rfl] at hx
  exact Except.noConfusion hx

/-- C4 counterexample: the Record Store's `delete_character` does perform
asset-file deletion — deleting a present character whose asset directory
exists removes the whole directory itself, so its filesystem-effect list is
not empty. -/
theorem store_deletes_assets_cex :
    (delete_character wOk demoFile demoChar.id).2.1
        = [FsEffect.deleteTree "static/images/11111111-2222"]
    ∧ (delete_character wOk demoFile demoChar.id).2.1 ≠ [] :=
  ⟨rfl, by decide⟩

/-- C4 (amended): the store's `delete_character` removes the record and
itself performs the (best-effort) deletion of the character's asset
directory; the endpoint caller `remove_character` merely delegates and adds
no asset deletion of its own. -/
theorem delete_responsibility_amended :
    ∀ (w : World) (file : StorageFile) (character_id : String),
      (get_character file character_id).isSome = true →
      delete_character w file character_id
        = (write_storage (eraseChar (read_storage file) character_id),
            (if w.dirExists (IMAGE_STORAGE_PATH ++ "/" ++ character_id)
              then [FsEffect.deleteTree (IMAGE_STORAGE_PATH ++ "/" ++ character_id)]
              else []),
            true)
      ∧ (remove_character w file character_id).2.1
          = (delete_character w file character_id).2.1 := by
  intro w file character_id h
  obtain ⟨c, hc⟩ := Option.isSome_iff_exists.mp h
  have hc' : lookupChar (read_storage file) character_id = some c := hc
  constructor
  · simp [delete_character, hc']
  · simp [remove_character, delete_character, hc']

/-- C4 witness: the amended deletion responsibility at a concrete store and
world. -/
theorem delete_responsibility_amended_witness :
    (get_character demoFile demoChar.id).isSome = true
    ∧ delete_character wOk demoFile demoChar.id
        = (write_storage (eraseChar (read_storage demoFile) demoChar.id),
            (if wOk.dirExists (IMAGE_STORAGE_PATH ++ "/" ++ demoChar.id)
              then [FsEffect.deleteTree (IMAGE_STORAGE_PATH ++ "/" ++ demoChar.id)]
              else []),
            true)
    ∧ (remove_character wOk demoFile demoChar.id).2.1
        = (delete_character wOk demoFile demoChar.id).2.1 :=
  ⟨rfl, (delete_responsibility_amended wOk demoFile demoChar.id rfl).1,
    (delete_responsibility_amended wOk demoFile demoChar.id rfl).2⟩

/-- C6: on an unknown identity, `get` reports not-found without raising,
`delete` returns false, and `add_variation` fails with the 404 `NotFound`
error — all without touching the store or the filesystem; and after a
successful delete of an existing identity, `get` reports not-found and a
second `delete` returns false, leaving the once-deleted store unchanged. -/
theorem notfound_semantics :
    (∀ (w : World) (file : StorageFile) (character_id : String)
        (pose expression setting : Option String) (now : Nat),
      get_character file character_id = none →
        read_character_by_id file character_id = .error ⟨404, "Character not found"⟩
        ∧ delete_character w file character_id = (file, [], false)
        ∧ create_character_variation w file character_id pose expression setting now
            = (file, .error ⟨404, "Character not found"⟩))
    ∧ (∀ (w w2 : World) (file : StorageFile) (character_id : String),
        StorageWF file → (get_character file character_id).isSome = true →
          (delete_character w file character_id).2.2 = true
          ∧ get_character (delete_character w file character_id).1 character_id = none
          ∧ delete_character w2 (delete_character w file character_id).1 character_id
              = ((delete_character w file character_id).1, [], false)) := by
  constructor
  · intro w file character_id pose expression setting now h
    have h' : lookupChar (read_storage file) character_id = none := h
    exact ⟨by simp [read_character_by_id, h],
      by simp [delete_character, h'],
      by simp [create_character_variation, h]⟩
  · intro w w2 file character_id hwf hsome
    obtain ⟨c, hc⟩ := Option.isSome_iff_exists.mp hsome
    have hc' : lookupChar (read_storage file) character_id = some c := hc
    have hnd : ((read_storage file).map Prod.fst).Nodup := by
      cases file <;> simpa [StorageWF, read_storage] using hwf
    have hdel : delete_character w file character_id
        = (write_storage (eraseChar (read_storage file) character_id),
            (if w.dirExists (IMAGE_STORAGE_PATH ++ "/" ++ character_id)
              then [FsEffect.deleteTree (IMAGE_STORAGE_PATH ++ "/" ++ character_id)]
              else []),
            true) := by
      simp [delete_character, hc']
    have hgone : lookupChar (eraseChar (read_storage file) character_id) character_id
        = none := lookupChar_eraseChar_self _ _ hnd
    refine ⟨by rw [hdel], ?_, ?_⟩
    · rw [hdel]
      simpa [get_character, write_storage, read_storage] using hgone
    · rw [hdel]
      have hread : read_storage (write_storage (eraseChar (read_storage file) character_id))
          = eraseChar (read_storage file) character_id := rfl
      simp [delete_character, hread, hgone]

/-- C6 witness: the not-found and delete semantics at a concrete store. -/
theorem notfound_semantics_witness :
    (read_character_by_id demoFile "zz" = .error ⟨404, "Character not found"⟩
      ∧ delete_character wOk demoFile "zz" = (demoFile, [], false)
      ∧ create_character_variation wOk demoFile "zz" (some "sitting") none none 5
          = (demoFile, .error ⟨404, "Character not found"⟩))
    ∧ ((delete_character wOk demoFile demoChar.id).2.2 = true
      ∧ get_character (delete_character wOk demoFile demoChar.id).1 demoChar.id = none
      ∧ delete_character wFail (delete_character wOk demoFile demoChar.id).1 demoChar.id
          = ((delete_character wOk demoFile demoChar.id).1, [], false)) :=
  ⟨notfound_semantics.1 wOk demoFile "zz" (some "sitting") none none 5 rfl,
    notfound_semantics.2 wOk wFail demoFile demoChar.id
      (by simp [demoFile, StorageWF]) rfl⟩
